import Mathlib

/-
  Verification of the Slack stand-up summariser job
  (slack_summary/app.py, function `handler`).

  The handler is a single linear flow with four external calls:
  secret lookup, Slack history fetch, language-model generation, and
  Slack post.  We embed it as a pure function of a `World` describing
  the outcomes of those external calls, returning an `Outcome` that
  records every call the handler issued together with its final result.
  Strings are modelled as lists of characters so that Python character
  slicing (`s[-12000:]`) and `str.strip()` are exact.
-/

abbrev Str := List Char

/-- A Slack message record as consumed by the handler: only the
optional `text` field is read (`m.get("text")`). -/
structure SlackMessage where
  text : Option Str
deriving DecidableEq

/-- The Slack `conversations_history` response body; the `messages`
field may be absent (the code reads `resp.get("messages", [])`). -/
structure HistoryResponse where
  messages : Option (List SlackMessage)
deriving DecidableEq

/-- The `replies` field of the Bedrock generator result: it may be
absent, present but not a list, or a list of strings
(`result.get("replies")` followed by the `isinstance` check). -/
inductive RepliesField where
  | absent
  | notList
  | list (xs : List Str)
deriving DecidableEq

/-- The dictionary returned by `generator.run`. -/
structure ModelResult where
  replies : RepliesField
deriving DecidableEq

/-- A `conversations_history` call issued by the handler, with the
keyword arguments it passes. -/
structure HistoryCall where
  channel : Str
  oldest : Str
  limit : Nat
deriving DecidableEq

/-- A `generator.run` call issued by the handler: the prompt and the
`max_tokens` generation kwarg. -/
structure GenCall where
  prompt : Str
  maxTokens : Nat
deriving DecidableEq

/-- A `chat_postMessage` call issued by the handler. -/
structure PostCall where
  channel : Str
  text : Str
deriving DecidableEq

/-- The ways the handler can terminate with a raised exception. -/
inductive JobError where
  | secretError
  | slackApiError
  | llmCallError
  | invalidLLMResponse
deriving DecidableEq

/-- The Lambda success payload `{"statusCode": ..., "body": ...}`. -/
structure LambdaResponse where
  statusCode : Nat
  body : Str
deriving DecidableEq

/-- A calendar date, input to `time.strftime` formatting. -/
structure Date where
  year : Nat
  month : Nat
  day : Nat
deriving DecidableEq

/-- The environment of one invocation: configuration, the current
time and date, and the outcome of each external call the handler may
make. -/
structure World where
  channelId : Str
  now : Int
  today : Date
  secretResult : Except Unit Str
  historyResult : Except Unit HistoryResponse
  generatorResult : Except Unit ModelResult
  postOk : Bool

/-- Everything observable about one invocation: the external calls
issued, in order per service, and the final result (normal return or
raised error). -/
structure Outcome where
  historyCalls : List HistoryCall
  generatorCalls : List GenCall
  postCalls : List PostCall
  result : Except JobError LambdaResponse

/-- Left zero-padding of a decimal numeral, as `strftime` does for
`%m` and `%d` (and `%Y` for four digits). -/
def padZeros (w : Nat) (n : Nat) : Str :=
  List.replicate (w - (Nat.repr n).data.length) '0' ++ (Nat.repr n).data

/-- `time.strftime(\x27%Y-%m-%d\x27)` on a given date. -/
def strftimeYmd (d : Date) : Str :=
  padZeros 4 d.year ++ ['-'] ++ padZeros 2 d.month ++ ['-'] ++ padZeros 2 d.day

/-- Truthiness test `m.get("text")` used as the comprehension filter:
true exactly when the text field is present and non-empty. -/
def textTruthy (m : SlackMessage) : Bool :=
  m.text.getD [] ≠ []

/-- `m.get("text", "")`. -/
def getTextD (m : SlackMessage) : Str :=
  m.text.getD []

/-- `[m.get("text", "") for m in messages if m.get("text")]`. -/
def extractTexts (ms : List SlackMessage) : List Str :=
  (ms.filter textTruthy).map getTextD

/-- Modelled from the spec (extraction rule, for refinement): keep the
text values of exactly those records whose text field is present and
non-empty, preserving retrieval order. -/
def specExtractTexts (ms : List SlackMessage) : List Str :=
  (ms.filterMap SlackMessage.text).filter (fun t => t ≠ [])

/-- `"\n\n".join(texts)`. -/
def joinTexts (ts : List Str) : Str :=
  List.intercalate ['\n', '\n'] ts

/-- Python slice `s[-n:]`: the trailing `n` characters (the whole
string when it is shorter than `n`). -/
def sliceLast (n : Nat) (s : Str) : Str :=
  s.drop (s.length - n)

/-- The characters removed by `str.strip()` with no argument
(ASCII whitespace; the handler only meets these). -/
def isPySpace (c : Char) : Bool :=
  c = ' ' || c = '\t' || c = '\n' || c = '\r' || c = '\x0b' || c = '\x0c'

/-- `s.strip()`: drop leading and trailing whitespace. -/
def pyStrip (s : Str) : Str :=
  (((s.dropWhile isPySpace).reverse.dropWhile isPySpace).reverse)

/-- The fixed instruction the prompt starts with. -/
def instructionText : Str :=
  ("Summarise the following stand-up updates into exactly five concise " ++
   "bullet points. Omit greetings and small talk:\n\n").data

/-- The bolded header line both posted messages start with:
`*Stand-up summary for <#CHANNEL> (YYYY-MM-DD):*` plus a newline. -/
def headerText (channelId : Str) (d : Date) : Str :=
  "*Stand-up summary for <#".data ++ channelId ++ "> (".data ++
    strftimeYmd d ++ "):*\n".data

/-- The full text of the empty-history notice post. -/
def noticeText (channelId : Str) (d : Date) : Str :=
  headerText channelId d ++
    "_There are no stand-up messages to summarise today._".data

/-- Body string of the success result in the notice branch. -/
def noticeBody : Str :=
  "Posted \x27no messages\x27 notice.".data

/-- Body string of the success result in the summary branch,
`json.dumps(\x7b"message": "Summary posted"\x7d)`. -/
def summaryBody : Str :=
  "\x7b\"message\": \"Summary posted\"\x7d".data

/-- The handler, embedded step by step from `app.py`:
secret lookup, history fetch (`oldest = str(now - 24*3600)`,
`limit=200`), text extraction, the empty-history notice branch,
prompt assembly with the 12000-character cap, the generator call with
`max_tokens=512`, response validation, and the summary post. -/
def handler (w : World) : Outcome :=
  match w.secretResult with
  | .error _ => ⟨[], [], [], .error .secretError⟩
  | .ok _token =>
    let oldest := (toString (w.now - 24 * 3600)).data
    let hcall : HistoryCall := ⟨w.channelId, oldest, 200⟩
    match w.historyResult with
    | .error _ => ⟨[hcall], [], [], .error .slackApiError⟩
    | .ok resp =>
      let messages := resp.messages.getD []
      let texts := extractTexts messages
      if texts = [] then
        let pcall : PostCall := ⟨w.channelId, noticeText w.channelId w.today⟩
        if w.postOk then
          ⟨[hcall], [], [pcall], .ok ⟨200, noticeBody⟩⟩
        else
          ⟨[hcall], [], [pcall], .error .slackApiError⟩
      else
        let joined := sliceLast 12000 (joinTexts texts)
        let gcall : GenCall := ⟨instructionText ++ joined, 512⟩
        match w.generatorResult with
        | .error _ => ⟨[hcall], [gcall], [], .error .llmCallError⟩
        | .ok result =>
          match result.replies with
          | .list (r :: _) =>
            let summary := pyStrip r
            let pcall : PostCall :=
              ⟨w.channelId, headerText w.channelId w.today ++ summary⟩
            if w.postOk then
              ⟨[hcall], [gcall], [pcall], .ok ⟨200, summaryBody⟩⟩
            else
              ⟨[hcall], [gcall], [pcall], .error .slackApiError⟩
          | _ => ⟨[hcall], [gcall], [], .error .invalidLLMResponse⟩

/-! ### Helper lemmas -/

theorem extractTexts_eq_nil_of (ms : List SlackMessage)
    (h : ∀ m ∈ ms, m.text.getD [] = []) : extractTexts ms = [] := by
  have hf : ms.filter textTruthy = [] := by
    rw [List.filter_eq_nil_iff]
    intro m hm
    simp [textTruthy, h m hm]
  simp [extractTexts, hf]

theorem handler_notice (w : World) (token : Str) (resp : HistoryResponse)
    (hs : w.secretResult = .ok token)
    (hh : w.historyResult = .ok resp)
    (he : extractTexts (resp.messages.getD []) = [])
    (hp : w.postOk = true) :
    handler w =
      ⟨[⟨w.channelId, (toString (w.now - 24 * 3600)).data, 200⟩], [],
       [⟨w.channelId, noticeText w.channelId w.today⟩],
       .ok ⟨200, noticeBody⟩⟩ := by
  simp [handler, hs, hh, he, hp]

theorem handler_genCalls (w : World) (token : Str) (resp : HistoryResponse)
    (hs : w.secretResult = .ok token)
    (hh : w.historyResult = .ok resp)
    (hne : extractTexts (resp.messages.getD []) ≠ []) :
    (handler w).generatorCalls =
      [⟨instructionText ++
          sliceLast 12000 (joinTexts (extractTexts (resp.messages.getD []))),
        512⟩] := by
  simp only [handler, hs, hh]
  rw [if_neg hne]
  cases hg : w.generatorResult with
  | error e => rfl
  | ok result =>
    cases hr : result.replies with
    | absent => simp [hr]
    | notList => simp [hr]
    | list xs =>
      cases xs with
      | nil => simp [hr]
      | cons r rs => cases hp : w.postOk <;> simp [hr, hp]

theorem handler_summaryPost (w : World) (token : Str) (resp : HistoryResponse)
    (mr : ModelResult) (r : Str) (rs : List Str)
    (hs : w.secretResult = .ok token)
    (hh : w.historyResult = .ok resp)
    (hne : extractTexts (resp.messages.getD []) ≠ [])
    (hg : w.generatorResult = .ok mr)
    (hr : mr.replies = .list (r :: rs)) :
    (handler w).postCalls =
      [⟨w.channelId, headerText w.channelId w.today ++ pyStrip r⟩] := by
  simp only [handler, hs, hh]
  rw [if_neg hne]
  simp only [hg]
  cases hp : w.postOk <;> simp [hr, hp]

theorem handler_invalid (w : World) (token : Str) (resp : HistoryResponse)
    (mr : ModelResult)
    (hs : w.secretResult = .ok token)
    (hh : w.historyResult = .ok resp)
    (hne : extractTexts (resp.messages.getD []) ≠ [])
    (hg : w.generatorResult = .ok mr)
    (hbad : mr.replies = .absent ∨ mr.replies = .notList ∨
      mr.replies = .list []) :
    (handler w).postCalls = [] ∧
      (handler w).result = .error .invalidLLMResponse := by
  simp only [handler, hs, hh]
  rw [if_neg hne]
  simp only [hg]
  rcases hbad with h | h | h <;> simp [h]

theorem sliceLast_length_le (n : Nat) (s : Str) :
    (sliceLast n s).length ≤ n := by
  simp only [sliceLast, List.length_drop]
  omega

theorem sliceLast_length_of_le (n : Nat) (s : Str) (h : n ≤ s.length) :
    (sliceLast n s).length = n := by
  simp only [sliceLast, List.length_drop]
  omega

theorem take_append_sliceLast (n : Nat) (s : Str) :
    s.take (s.length - n) ++ sliceLast n s = s :=
  List.take_append_drop _ _

theorem getLast?_of_dropWhile_getLast? (p : Char → Bool) (l : Str) (c : Char)
    (hx : (l.dropWhile p).getLast? = some c) : l.getLast? = some c := by
  obtain ⟨t, ht⟩ := List.dropWhile_suffix (l := l) p
  rw [← ht, List.getLast?_append, hx]
  rfl

theorem pyStrip_decomp (s : Str) :
    ∃ a b, s = a ++ pyStrip s ++ b ∧
      (∀ c ∈ a, isPySpace c = true) ∧ (∀ c ∈ b, isPySpace c = true) := by
  refine ⟨s.takeWhile isPySpace,
    ((s.dropWhile isPySpace).reverse.takeWhile isPySpace).reverse, ?_, ?_, ?_⟩
  · have h2 : s.dropWhile isPySpace =
        pyStrip s ++
          ((s.dropWhile isPySpace).reverse.takeWhile isPySpace).reverse := by
      conv_lhs => rw [← List.reverse_reverse (s.dropWhile isPySpace),
        ← List.takeWhile_append_dropWhile isPySpace
          (s.dropWhile isPySpace).reverse]
      rw [List.reverse_append]
      rfl
    calc s = s.takeWhile isPySpace ++ s.dropWhile isPySpace :=
          (List.takeWhile_append_dropWhile isPySpace s).symm
      _ = s.takeWhile isPySpace ++ (pyStrip s ++
            ((s.dropWhile isPySpace).reverse.takeWhile isPySpace).reverse) := by
          rw [← h2]
      _ = s.takeWhile isPySpace ++ pyStrip s ++
            ((s.dropWhile isPySpace).reverse.takeWhile isPySpace).reverse := by
          rw [List.append_assoc]
  · exact fun c hc => List.mem_takeWhile_imp hc
  · intro c hc
    rw [List.mem_reverse] at hc
    exact List.mem_takeWhile_imp hc

theorem pyStrip_head_not_space (s : Str) (c : Char)
    (hc : (pyStrip s).head? = some c) : isPySpace c = false := by
  unfold pyStrip at hc
  rw [List.head?_reverse] at hc
  have hlast : (s.dropWhile isPySpace).reverse.getLast? = some c :=
    getLast?_of_dropWhile_getLast? isPySpace _ c hc
  rw [List.getLast?_reverse] at hlast
  have hnot := List.head?_dropWhile_not isPySpace s
  rw [hlast] at hnot
  simpa using hnot

theorem pyStrip_getLast_not_space (s : Str) (c : Char)
    (hc : (pyStrip s).getLast? = some c) : isPySpace c = false := by
  unfold pyStrip at hc
  rw [List.getLast?_reverse] at hc
  have hnot := List.head?_dropWhile_not isPySpace (s.dropWhile isPySpace).reverse
  rw [hc] at hnot
  simpa using hnot

/-- Specification-side predicate (for refinement of `str.strip()`):
`out` is `orig` with some all-whitespace leading and trailing portions
removed, and `out` itself neither starts nor ends with whitespace. -/
def IsStripped (orig out : Str) : Prop :=
  (∃ a b, orig = a ++ out ++ b ∧
    (∀ c ∈ a, isPySpace c = true) ∧ (∀ c ∈ b, isPySpace c = true)) ∧
  (∀ c, out.head? = some c → isPySpace c = false) ∧
  (∀ c, out.getLast? = some c → isPySpace c = false)

theorem pyStrip_isStripped (s : Str) : IsStripped s (pyStrip s) :=
  ⟨pyStrip_decomp s, pyStrip_head_not_space s, pyStrip_getLast_not_space s⟩

/-! ### Claim theorems -/

/-- Claim C1: for every fetched message list in which no message carries a
non-empty text field, the job takes the empty-history branch: it never
calls the generator, makes exactly one postMessage call whose text is the
fixed notice, and returns a success result. -/
theorem C1_empty_history_notice (w : World) (token : Str)
    (resp : HistoryResponse)
    (hs : w.secretResult = .ok token)
    (hh : w.historyResult = .ok resp)
    (hempty : ∀ m ∈ resp.messages.getD [], m.text.getD [] = [])
    (hp : w.postOk = true) :
    (handler w).generatorCalls = [] ∧
    (handler w).postCalls = [⟨w.channelId, noticeText w.channelId w.today⟩] ∧
    (handler w).result = .ok ⟨200, noticeBody⟩ := by
  have he := extractTexts_eq_nil_of _ hempty
  rw [handler_notice w token resp hs hh he hp]
  exact ⟨rfl, rfl, rfl⟩

/-- Witness for C1 at a concrete world: two messages, one with no text
field and one with an empty text field. -/
theorem C1_empty_history_notice_witness :
    (handler ⟨"CH1".data, 1000000, ⟨2026, 10, 12⟩, .ok "tok".data,
        .ok ⟨some [⟨none⟩, ⟨some []⟩]⟩, .ok ⟨.absent⟩, true⟩).generatorCalls
        = [] ∧
    (handler ⟨"CH1".data, 1000000, ⟨2026, 10, 12⟩, .ok "tok".data,
        .ok ⟨some [⟨none⟩, ⟨some []⟩]⟩, .ok ⟨.absent⟩, true⟩).postCalls =
      [⟨"CH1".data, noticeText "CH1".data ⟨2026, 10, 12⟩⟩] ∧
    (handler ⟨"CH1".data, 1000000, ⟨2026, 10, 12⟩, .ok "tok".data,
        .ok ⟨some [⟨none⟩, ⟨some []⟩]⟩, .ok ⟨.absent⟩, true⟩).result =
      .ok ⟨200, noticeBody⟩ :=
  C1_empty_history_notice _ "tok".data ⟨some [⟨none⟩, ⟨some []⟩]⟩
    rfl rfl (by decide) rfl

/-- Claim C7: the extracted text list contains exactly the text values of
those records whose text field is present and non-empty, in retrieval
order (refinement of the comprehension against the spec-side rule). -/
theorem C7_extraction_rule (ms : List SlackMessage) :
    extractTexts ms = specExtractTexts ms := by
  induction ms with
  | nil => rfl
  | cons m tl ih =>
    rcases m with ⟨t⟩
    cases t with
    | none =>
      simpa [extractTexts, specExtractTexts, textTruthy, getTextD] using ih
    | some t =>
      by_cases ht : t = [] <;>
        simp [extractTexts, specExtractTexts, textTruthy, getTextD, ht] at ih ⊢ <;>
        simpa [extractTexts, specExtractTexts] using ih

/-- Claim C10: on every execution path, at most one postMessage call is
made; in particular no invocation posts both the notice and a summary. -/
theorem C10_at_most_one_post (w : World) :
    (handler w).postCalls.length ≤ 1 := by
  cases hs : w.secretResult with
  | error e => simp [handler, hs]
  | ok tok =>
    cases hh : w.historyResult with
    | error e => simp [handler, hs, hh]
    | ok resp =>
      by_cases he : extractTexts (resp.messages.getD []) = []
      · cases hp : w.postOk <;> simp [handler, hs, hh, he, hp]
      · cases hg : w.generatorResult with
        | error e => simp [handler, hs, hh, he, hg]
        | ok mr =>
          cases hr : mr.replies with
          | absent => simp [handler, hs, hh, he, hg, hr]
          | notList => simp [handler, hs, hh, he, hg, hr]
          | list xs =>
            cases xs with
            | nil => simp [handler, hs, hh, he, hg, hr]
            | cons r rs =>
              cases hp : w.postOk <;> simp [handler, hs, hh, he, hg, hr, hp]

/-- Claim C9: a history response with no messages field at all is treated
exactly like an empty message list: the notice branch is taken and the
invocation succeeds. -/
theorem C9_missing_messages_field (w : World) (token : Str)
    (hs : w.secretResult = .ok token)
    (hh : w.historyResult = .ok ⟨none⟩)
    (hp : w.postOk = true) :
    handler w = handler { w with historyResult := .ok ⟨some []⟩ } ∧
    (handler w).generatorCalls = [] ∧
    (handler w).postCalls = [⟨w.channelId, noticeText w.channelId w.today⟩] ∧
    (handler w).result = .ok ⟨200, noticeBody⟩ := by
  have h1 := handler_notice w token ⟨none⟩ hs hh rfl hp
  have h2 := handler_notice { w with historyResult := .ok ⟨some []⟩ }
    token ⟨some []⟩ hs rfl rfl hp
  rw [h1, h2]
  exact ⟨rfl, rfl, rfl, rfl⟩

/-- Witness for C9 at a concrete world whose history response lacks the
messages field. -/
theorem C9_missing_messages_field_witness :
    handler ⟨"CH9".data, 1000000, ⟨2026, 10, 12⟩, .ok "tok".data,
        .ok ⟨none⟩, .ok ⟨.absent⟩, true⟩ =
      handler { (⟨"CH9".data, 1000000, ⟨2026, 10, 12⟩, .ok "tok".data,
        .ok ⟨none⟩, .ok ⟨.absent⟩, true⟩ : World) with
          historyResult := .ok ⟨some []⟩ } ∧
    (handler ⟨"CH9".data, 1000000, ⟨2026, 10, 12⟩, .ok "tok".data,
        .ok ⟨none⟩, .ok ⟨.absent⟩, true⟩).generatorCalls = [] ∧
    (handler ⟨"CH9".data, 1000000, ⟨2026, 10, 12⟩, .ok "tok".data,
        .ok ⟨none⟩, .ok ⟨.absent⟩, true⟩).postCalls =
      [⟨"CH9".data, noticeText "CH9".data ⟨2026, 10, 12⟩⟩] ∧
    (handler ⟨"CH9".data, 1000000, ⟨2026, 10, 12⟩, .ok "tok".data,
        .ok ⟨none⟩, .ok ⟨.absent⟩, true⟩).result = .ok ⟨200, noticeBody⟩ :=
  C9_missing_messages_field _ "tok".data rfl rfl rfl

/-- Claim C2: for every non-empty extracted text set, the truncated join
passed to the model is at most 12000 characters, and when the raw
blank-line join is longer, the passed text is precisely its trailing
12000-character suffix. -/
theorem C2_truncation (w : World) (token : Str) (resp : HistoryResponse)
    (hs : w.secretResult = .ok token)
    (hh : w.historyResult = .ok resp)
    (hne : extractTexts (resp.messages.getD []) ≠ []) :
    (handler w).generatorCalls =
      [⟨instructionText ++
          sliceLast 12000 (joinTexts (extractTexts (resp.messages.getD []))),
        512⟩] ∧
    (sliceLast 12000
        (joinTexts (extractTexts (resp.messages.getD [])))).length ≤ 12000 ∧
    (12000 < (joinTexts (extractTexts (resp.messages.getD []))).length →
      (sliceLast 12000
          (joinTexts (extractTexts (resp.messages.getD [])))).length = 12000 ∧
      (joinTexts (extractTexts (resp.messages.getD []))).take
          ((joinTexts (extractTexts (resp.messages.getD []))).length - 12000)
          ++
          sliceLast 12000 (joinTexts (extractTexts (resp.messages.getD [])))
        = joinTexts (extractTexts (resp.messages.getD []))) :=
  ⟨handler_genCalls w token resp hs hh hne,
   sliceLast_length_le _ _,
   fun hgt =>
    ⟨sliceLast_length_of_le _ _ (le_of_lt hgt), take_append_sliceLast _ _⟩⟩

/-- Witness for C2 at a concrete world with one non-empty message. -/
theorem C2_truncation_witness :
    (handler ⟨"CH2".data, 1000000, ⟨2026, 10, 12⟩, .ok "tok".data,
        .ok ⟨some [⟨some "did X".data⟩]⟩, .ok ⟨.absent⟩, true⟩).generatorCalls
      =
      [⟨instructionText ++
          sliceLast 12000 (joinTexts (extractTexts
            ((⟨some [⟨some "did X".data⟩]⟩ : HistoryResponse).messages.getD
              []))),
        512⟩] ∧
    (sliceLast 12000 (joinTexts (extractTexts
        ((⟨some [⟨some "did X".data⟩]⟩ :
          HistoryResponse).messages.getD [])))).length ≤ 12000 ∧
    (12000 < (joinTexts (extractTexts
        ((⟨some [⟨some "did X".data⟩]⟩ :
          HistoryResponse).messages.getD []))).length →
      (sliceLast 12000 (joinTexts (extractTexts
          ((⟨some [⟨some "did X".data⟩]⟩ :
            HistoryResponse).messages.getD [])))).length = 12000 ∧
      (joinTexts (extractTexts
          ((⟨some [⟨some "did X".data⟩]⟩ :
            HistoryResponse).messages.getD []))).take
          ((joinTexts (extractTexts
            ((⟨some [⟨some "did X".data⟩]⟩ :
              HistoryResponse).messages.getD []))).length - 12000)
          ++
          sliceLast 12000 (joinTexts (extractTexts
            ((⟨some [⟨some "did X".data⟩]⟩ :
              HistoryResponse).messages.getD [])))
        = joinTexts (extractTexts
            ((⟨some [⟨some "did X".data⟩]⟩ :
              HistoryResponse).messages.getD []))) :=
  C2_truncation _ "tok".data ⟨some [⟨some "did X".data⟩]⟩ rfl rfl (by decide)

/-- Claim C3: a model response whose completion list is missing, not a
list, or empty raises the invalid-model-response error and makes no
postMessage call. -/
theorem C3_invalid_response (w : World) (token : Str) (resp : HistoryResponse)
    (mr : ModelResult)
    (hs : w.secretResult = .ok token)
    (hh : w.historyResult = .ok resp)
    (hne : extractTexts (resp.messages.getD []) ≠ [])
    (hg : w.generatorResult = .ok mr)
    (hbad : mr.replies = .absent ∨ mr.replies = .notList ∨
      mr.replies = .list []) :
    (handler w).postCalls = [] ∧
      (handler w).result = .error .invalidLLMResponse :=
  handler_invalid w token resp mr hs hh hne hg hbad

/-- Witness for C3 at a concrete world whose model response has no
replies field. -/
theorem C3_invalid_response_witness :
    (handler ⟨"CH3".data, 1000000, ⟨2026, 10, 12⟩, .ok "tok".data,
        .ok ⟨some [⟨some "did X".data⟩]⟩, .ok ⟨.absent⟩, true⟩).postCalls
      = [] ∧
    (handler ⟨"CH3".data, 1000000, ⟨2026, 10, 12⟩, .ok "tok".data,
        .ok ⟨some [⟨some "did X".data⟩]⟩, .ok ⟨.absent⟩, true⟩).result =
      .error .invalidLLMResponse :=
  C3_invalid_response _ "tok".data ⟨some [⟨some "did X".data⟩]⟩ ⟨.absent⟩
    rfl rfl (by decide) rfl (Or.inl rfl)

/-- Claim C4: for every well-formed model response, the summary portion of
the posted message is the first completion with leading and trailing
whitespace removed. -/
theorem C4_posted_summary (w : World) (token : Str) (resp : HistoryResponse)
    (mr : ModelResult) (r : Str) (rs : List Str)
    (hs : w.secretResult = .ok token)
    (hh : w.historyResult = .ok resp)
    (hne : extractTexts (resp.messages.getD []) ≠ [])
    (hg : w.generatorResult = .ok mr)
    (hr : mr.replies = .list (r :: rs)) :
    (handler w).postCalls =
      [⟨w.channelId, headerText w.channelId w.today ++ pyStrip r⟩] ∧
    IsStripped r (pyStrip r) :=
  ⟨handler_summaryPost w token resp mr r rs hs hh hne hg hr,
   pyStrip_isStripped r⟩

/-- Witness for C4 at a concrete world whose model response carries one
completion surrounded by whitespace. -/
theorem C4_posted_summary_witness :
    (handler ⟨"CH4".data, 1000000, ⟨2026, 10, 12⟩, .ok "tok".data,
        .ok ⟨some [⟨some "did X".data⟩]⟩,
        .ok ⟨.list [" - X\n".data]⟩, true⟩).postCalls =
      [⟨"CH4".data, headerText "CH4".data ⟨2026, 10, 12⟩ ++
          pyStrip " - X\n".data⟩] ∧
    IsStripped " - X\n".data (pyStrip " - X\n".data) :=
  C4_posted_summary _ "tok".data ⟨some [⟨some "did X".data⟩]⟩
    ⟨.list [" - X\n".data]⟩ " - X\n".data [] rfl rfl (by decide) rfl rfl

/-- Claim C5: whenever the model is called, the prompt is exactly the
fixed instruction followed by the truncated join, so the instruction is
never truncated and the whole prompt is bounded by the instruction length
plus 12000. -/
theorem C5_prompt_shape (w : World) (token : Str) (resp : HistoryResponse)
    (hs : w.secretResult = .ok token)
    (hh : w.historyResult = .ok resp)
    (hne : extractTexts (resp.messages.getD []) ≠ []) :
    (handler w).generatorCalls =
      [⟨instructionText ++
          sliceLast 12000 (joinTexts (extractTexts (resp.messages.getD []))),
        512⟩] ∧
    ∀ g ∈ (handler w).generatorCalls,
      g.prompt.length ≤ instructionText.length + 12000 := by
  have h := handler_genCalls w token resp hs hh hne
  refine ⟨h, ?_⟩
  intro g hg
  rw [h, List.mem_singleton] at hg
  subst hg
  dsimp only
  rw [List.length_append]
  have := sliceLast_length_le 12000
    (joinTexts (extractTexts (resp.messages.getD [])))
  omega

/-- Witness for C5 at a concrete world with one non-empty message. -/
theorem C5_prompt_shape_witness :
    (handler ⟨"CH5".data, 1000000, ⟨2026, 10, 12⟩, .ok "tok".data,
        .ok ⟨some [⟨some "did X".data⟩]⟩, .ok ⟨.absent⟩, true⟩).generatorCalls
      =
      [⟨instructionText ++
          sliceLast 12000 (joinTexts (extractTexts
            ((⟨some [⟨some "did X".data⟩]⟩ :
              HistoryResponse).messages.getD []))),
        512⟩] ∧
    ∀ g ∈ (handler ⟨"CH5".data, 1000000, ⟨2026, 10, 12⟩, .ok "tok".data,
        .ok ⟨some [⟨some "did X".data⟩]⟩,
        .ok ⟨.absent⟩, true⟩).generatorCalls,
      g.prompt.length ≤ instructionText.length + 12000 :=
  C5_prompt_shape _ "tok".data ⟨some [⟨some "did X".data⟩]⟩ rfl rfl (by decide)

/-- Claim C6: every message the job posts, on either terminal branch,
begins with the bolded header embedding the channel mention and the
current date in YYYY-MM-DD form. -/
theorem C6_header_format (w : World) (p : PostCall)
    (hmem : p ∈ (handler w).postCalls) :
    ∃ rest, p.text =
      "*Stand-up summary for <#".data ++ w.channelId ++ "> (".data ++
        strftimeYmd w.today ++ "):*\n".data ++ rest := by
  cases hs : w.secretResult with
  | error e => simp [handler, hs] at hmem
  | ok tok =>
    cases hh : w.historyResult with
    | error e => simp [handler, hs, hh] at hmem
    | ok resp =>
      by_cases he : extractTexts (resp.messages.getD []) = []
      · cases hp : w.postOk <;>
          simp [handler, hs, hh, he, hp] at hmem <;>
          (subst hmem;
           exact ⟨"_There are no stand-up messages to summarise today._".data,
             rfl⟩)
      · cases hg : w.generatorResult with
        | error e => simp [handler, hs, hh, he, hg] at hmem
        | ok mr =>
          cases hr : mr.replies with
          | absent => simp [handler, hs, hh, he, hg, hr] at hmem
          | notList => simp [handler, hs, hh, he, hg, hr] at hmem
          | list xs =>
            cases xs with
            | nil => simp [handler, hs, hh, he, hg, hr] at hmem
            | cons r rs =>
              cases hp : w.postOk <;>
                simp [handler, hs, hh, he, hg, hr, hp] at hmem <;>
                (subst hmem; exact ⟨pyStrip r, rfl⟩)

/-- Witness for C6 at a concrete world taking the notice branch. -/
theorem C6_header_format_witness :
    ∃ rest,
      (⟨"CH6".data, noticeText "CH6".data ⟨2026, 10, 12⟩⟩ : PostCall).text =
        "*Stand-up summary for <#".data ++ "CH6".data ++ "> (".data ++
          strftimeYmd ⟨2026, 10, 12⟩ ++ "):*\n".data ++ rest :=
  C6_header_format
    ⟨"CH6".data, 1000000, ⟨2026, 10, 12⟩, .ok "tok".data,
      .ok ⟨some []⟩, .ok ⟨.absent⟩, true⟩
    ⟨"CH6".data, noticeText "CH6".data ⟨2026, 10, 12⟩⟩ (by decide)

theorem handler_historyCalls_of_ok (w : World) (token : Str)
    (hs : w.secretResult = .ok token) :
    (handler w).historyCalls =
      [⟨w.channelId, (toString (w.now - 24 * 3600)).data, 200⟩] := by
  cases hh : w.historyResult with
  | error e => simp [handler, hs, hh]
  | ok resp =>
    by_cases he : extractTexts (resp.messages.getD []) = []
    · cases hp : w.postOk <;> simp [handler, hs, hh, he, hp]
    · cases hg : w.generatorResult with
      | error e => simp [handler, hs, hh, he, hg]
      | ok mr =>
        cases hr : mr.replies with
        | absent => simp [handler, hs, hh, he, hg, hr]
        | notList => simp [handler, hs, hh, he, hg, hr]
        | list xs =>
          cases xs with
          | nil => simp [handler, hs, hh, he, hg, hr]
          | cons r rs =>
            cases hp : w.postOk <;> simp [handler, hs, hh, he, hg, hr, hp]

/-- Claim C8: at most one history request is made; any history request
carries the channel, `oldest = str(now - 86400)` and `limit = 200`; and
whenever the secret lookup succeeds, exactly one such request is made. -/
theorem C8_history_request (w : World) :
    (handler w).historyCalls.length ≤ 1 ∧
    (∀ c ∈ (handler w).historyCalls,
      c.channel = w.channelId ∧
      c.oldest = (toString (w.now - 86400)).data ∧ c.limit = 200) ∧
    ∀ token, w.secretResult = .ok token →
      (handler w).historyCalls =
        [⟨w.channelId, (toString (w.now - 86400)).data, 200⟩] := by
  have h86 : w.now - 24 * 3600 = w.now - 86400 := by norm_num
  cases hs : w.secretResult with
  | error e =>
    have h0 : (handler w).historyCalls = [] := by simp [handler, hs]
    refine ⟨by rw [h0]; simp, by rw [h0]; simp, ?_⟩
    intro token htok
    simp at htok
  | ok tok =>
    have h1 := handler_historyCalls_of_ok w tok hs
    rw [h86] at h1
    refine ⟨by rw [h1]; simp, ?_, fun token _ => h1⟩
    intro c hc
    rw [h1, List.mem_singleton] at hc
    subst hc
    exact ⟨rfl, rfl, rfl⟩

/-- Witness for C8 at a concrete world: the single history call with its
exact parameters. -/
theorem C8_history_request_witness :
    (handler ⟨"CH8".data, 1000000, ⟨2026, 10, 12⟩, .ok "tok".data,
        .ok ⟨some []⟩, .ok ⟨.absent⟩, true⟩).historyCalls =
      [⟨"CH8".data, (toString ((1000000 : Int) - 86400)).data, 200⟩] :=
  (C8_history_request
    ⟨"CH8".data, 1000000, ⟨2026, 10, 12⟩, .ok "tok".data,
      .ok ⟨some []⟩, .ok ⟨.absent⟩, true⟩).2.2 "tok".data rfl
